import Mathlib

/-!
Verification development for the ai-art-generator frontend and the
approval-loop state machine described in its specification.

The definitions below are shallow embeddings of the TypeScript source:
React component state becomes explicit record-passing, fetch submissions
become returned request records, and JavaScript truthiness (`x || y`,
`parseInt(x) || 1`) is modelled explicitly.
-/

/-- The two approval modes of an `ApprovalItem` (types/index.ts, `ApprovalType`). -/
inductive ApprovalType where
  | choose_one
  | accept_reject
  deriving DecidableEq, Repr

/-- One generated candidate shown in the interactive queue
(types/index.ts, `GeneratedOption`). -/
structure GeneratedOption where
  id : String
  type : String
  text_content : Option String := none
  deriving DecidableEq, Repr

/-- One entry of the interactive approval queue (types/index.ts, `ApprovalItem`). -/
structure ApprovalItem where
  id : String
  asset_id : String
  approval_type : ApprovalType
  options : List GeneratedOption
  attempt : Nat
  max_attempts : Nat
  deriving DecidableEq, Repr

/-- Aggregate queue counts returned by `/interactive/status`
(types/index.ts, `QueueStatus`). -/
structure QueueStatus where
  total_assets : Nat
  completed_assets : Nat
  failed_assets : Nat
  awaiting_approval : Nat
  currently_generating : Nat
  pending : Nat
  is_running : Bool
  is_paused : Bool
  deriving DecidableEq, Repr

/-- One in-flight generation shown in the sidebar (types/index.ts, `GeneratingItem`). -/
structure GeneratingItem where
  id : String
  asset_id : String
  step_id : String
  progress : Int
  deriving DecidableEq, Repr

/-- Body of `submitInteractiveApproval` (api/client.ts; types/index.ts,
`ApprovalDecision`). Optional fields are `none` when the component leaves
them `undefined`. -/
structure InteractiveApprovalRequest where
  item_id : String
  approved : Bool
  selected_option_id : Option String
  regenerate : Option Bool
  deriving DecidableEq, Repr

/-- JavaScript truthiness of a `string | null` value: `null` and the empty
string are falsy. -/
def strTruthy : Option String → Bool
  | some s => !s.isEmpty
  | none => false

namespace InteractiveQueue

/-- The component state of `InteractiveQueue` (InteractiveQueue.tsx) that the
handlers read and write. -/
structure UIState where
  status : Option QueueStatus
  currentItem : Option ApprovalItem
  pendingItems : List ApprovalItem
  generatingItems : List GeneratingItem
  selectedOption : Option String
  loading : Bool
  deriving DecidableEq, Repr

/-- The four responses fetched by `loadQueue` (InteractiveQueue.tsx:58):
`/interactive/status`, `/interactive/next`, `/interactive/approvals`,
`/interactive/generating`. -/
structure QueueResponses where
  statusRes : QueueStatus
  nextItem : Option ApprovalItem
  allItems : List ApprovalItem
  genItems : List GeneratingItem
  deriving DecidableEq, Repr

/-- `loadQueue` (InteractiveQueue.tsx:58-84): stores the fetched status, sets
the current item to the `getNext()` result, the pending list to the full
approval list minus its head (`allRes.items.slice(1)`), and, when the next
item is non-null, auto-selects the first option for `choose_one` items and
clears the selection otherwise. -/
def loadQueue (st : UIState) (r : QueueResponses) : UIState :=
  let base : UIState :=
    { st with
      status := some r.statusRes
      currentItem := r.nextItem
      pendingItems := r.allItems.drop 1
      generatingItems := r.genItems }
  match r.nextItem with
  | none => base
  | some item =>
    if item.approval_type = ApprovalType.choose_one ∧ 0 < item.options.length then
      { base with selectedOption := (item.options.head?).map (fun o => o.id) }
    else
      { base with selectedOption := none }

/-- `handleApprove` (InteractiveQueue.tsx:159-175): submits an approval for
the current item with `selected_option_id: selectedOption || undefined`.
Returns the request body, or `none` when there is no current item. -/
def handleApprove (st : UIState) : Option InteractiveApprovalRequest :=
  match st.currentItem with
  | none => none
  | some item =>
    some { item_id := item.id
           approved := true
           selected_option_id :=
             if strTruthy st.selectedOption then st.selectedOption else none
           regenerate := none }

/-- `handleReject` (InteractiveQueue.tsx:178-194): submits
`approved: false, regenerate: true` for the current item. -/
def handleReject (st : UIState) : Option InteractiveApprovalRequest :=
  match st.currentItem with
  | none => none
  | some item =>
    some { item_id := item.id
           approved := false
           selected_option_id := none
           regenerate := some true }

/-- The `y`/`Enter` branch of `handleKeyDown` (InteractiveQueue.tsx:102-120):
guarded by `!currentItem || loading`, then fires `handleApprove` only when
`selectedOption` is truthy or the item is `accept_reject`. -/
def keyApprove (st : UIState) : Option InteractiveApprovalRequest :=
  match st.currentItem with
  | none => none
  | some item =>
    if st.loading then none
    else if strTruthy st.selectedOption ∨ item.approval_type = ApprovalType.accept_reject then
      handleApprove st
    else none

/-- The `n` branch of `handleKeyDown` (InteractiveQueue.tsx:121-123),
guarded by `!currentItem || loading`. -/
def keyReject (st : UIState) : Option InteractiveApprovalRequest :=
  match st.currentItem with
  | none => none
  | some _ => if st.loading then none else handleReject st

/-- Enabled state of the choose-one Select button
(InteractiveQueue.tsx:555-561): `disabled={!selectedOption || loading}`. -/
def selectButtonEnabled (st : UIState) : Bool :=
  strTruthy st.selectedOption && !st.loading

/-- A click on the Select button: fires `handleApprove` only when the button
is enabled (a disabled button emits no click). -/
def clickSelectButton (st : UIState) : Option InteractiveApprovalRequest :=
  if selectButtonEnabled st then handleApprove st else none

/-- The number-key branch of `handleKeyDown` (InteractiveQueue.tsx:106-112):
for key `k` in 1..9, selects option `k-1` only when `k-1 < options.length`.
Returns the new `selectedOption`. -/
def pressNumberKey (st : UIState) (k : Nat) : Option String :=
  match st.currentItem with
  | none => st.selectedOption
  | some item =>
    if st.loading then st.selectedOption
    else if 1 ≤ k ∧ k ≤ 9 then
      match item.options.get? (k - 1) with
      | some o => some o.id
      | none => st.selectedOption
    else st.selectedOption

/-- JS `findIndex` result: the first index whose id matches, else `-1`. -/
def findIndexJs (opts : List GeneratedOption) (sel : String) : Int :=
  match opts.findIdx? (fun o => o.id = sel) with
  | some i => (i : Int)
  | none => -1

/-- The two sequential wrap-around corrections of `navigateOption`
(InteractiveQueue.tsx:152-153): `if (newIndex < 0) newIndex = length - 1;
if (newIndex >= length) newIndex = 0`. -/
def wrapIndex (len : Int) (n1 : Int) : Int :=
  if len ≤ (if n1 < 0 then len - 1 else n1) then 0
  else (if n1 < 0 then len - 1 else n1)

/-- JS `options[i].id` guarded by the caller: the id at index `i`, with the
previous selection kept when the index is out of range. -/
def optionIdAt (opts : List GeneratedOption) (i : Nat) (fallback : Option String) :
    Option String :=
  match opts.get? i with
  | some o => some o.id
  | none => fallback

/-- `navigateOption` (InteractiveQueue.tsx:144-156): arrow-key navigation
with wrap-around at both ends. Returns the new `selectedOption`. -/
def navigateOption (st : UIState) (direction : Int) : Option String :=
  match st.currentItem with
  | none => st.selectedOption
  | some item =>
    if item.options.length = 0 then st.selectedOption
    else
      let currentIndex : Int :=
        if strTruthy st.selectedOption then
          findIndexJs item.options (st.selectedOption.getD "")
        else -1
      optionIdAt item.options
        (wrapIndex (item.options.length : Int) (currentIndex + direction)).toNat
        st.selectedOption

end InteractiveQueue

/-- The empty-state view branches of `InteractiveQueue` when no item is
current (InteractiveQueue.tsx:374-486). -/
inductive EmptyView where
  | generatingView
  | waitingView
  | loadingApprovalsView
  | workOutstandingView
  | allDoneView
  | noAssetsView
  deriving DecidableEq, Repr

namespace InteractiveQueue

/-- `status?.total_assets || 0`. -/
def statusTotal : Option QueueStatus → Nat
  | some s => s.total_assets
  | none => 0

/-- `status?.completed_assets || 0`. -/
def statusCompleted : Option QueueStatus → Nat
  | some s => s.completed_assets
  | none => 0

/-- `status?.failed_assets || 0`. -/
def statusFailed : Option QueueStatus → Nat
  | some s => s.failed_assets
  | none => 0

/-- `status?.currently_generating || 0`. -/
def statusGenerating : Option QueueStatus → Nat
  | some s => s.currently_generating
  | none => 0

/-- `status?.pending || 0`. -/
def statusPending : Option QueueStatus → Nat
  | some s => s.pending
  | none => 0

/-- `status?.awaiting_approval || 0`. -/
def statusAwaiting : Option QueueStatus → Nat
  | some s => s.awaiting_approval
  | none => 0

/-- `status?.is_running` coerced to a boolean (undefined is falsy). -/
def statusRunning : Option QueueStatus → Bool
  | some s => s.is_running
  | none => false

/-- The cascade of conditions choosing the empty-state view
(InteractiveQueue.tsx:374-486): generating, waiting, loading approvals,
work outstanding, all done, no assets — tried in that order. -/
def emptyStateView (status : Option QueueStatus) : EmptyView :=
  let total := statusTotal status
  let done := statusCompleted status + statusFailed status
  let outstanding : Int := (total : Int) - (done : Int)
  if 0 < statusGenerating status then EmptyView.generatingView
  else if 0 < statusPending status ∨ (statusRunning status = true ∧ 0 < outstanding) then
    EmptyView.waitingView
  else if 0 < statusAwaiting status then EmptyView.loadingApprovalsView
  else if 0 < outstanding then EmptyView.workOutstandingView
  else if 0 < total ∧ total ≤ done then EmptyView.allDoneView
  else EmptyView.noAssetsView

end InteractiveQueue

namespace ApprovalQueue

/-- The asset carried by a classic queue item (types/index.ts, `Asset`),
restricted to the fields the approval handlers read. -/
structure Asset where
  id : String
  deriving DecidableEq, Repr

/-- One classic queue entry (types/index.ts, `QueueItem`). -/
structure QueueItem where
  asset : Asset
  step_id : String
  deriving DecidableEq, Repr

/-- Body of `submitApproval` (api/client.ts). Optional fields are `none`
when the component leaves them `undefined`. -/
structure ApprovalRequest where
  asset_id : String
  step_id : String
  approved : Bool
  selected_index : Option Nat := none
  regenerate : Option Bool := none
  modified_prompt : Option String := none
  deriving DecidableEq, Repr

/-- The component state of the classic `ApprovalQueue` (ContentInput.tsx)
read and written by its handlers. -/
structure UIState where
  queue : List QueueItem
  currentIndex : Nat
  selectedVariation : Option Nat
  modifiedPrompt : String
  deriving DecidableEq, Repr

/-- `handleReject` of the classic queue (ContentInput.tsx:463-481): submits
`approved: false` with `modified_prompt: regenerate ? modifiedPrompt ||
undefined : undefined`, then clears the prompt input and the variation
selection. Returns the request together with the post-submit state, or
`none` when `queue[currentIndex]` does not exist (the component renders the
handler only for a non-empty queue). -/
def handleReject (st : UIState) (regenerate : Bool) :
    Option (ApprovalRequest × UIState) :=
  match st.queue.get? st.currentIndex with
  | none => none
  | some qi =>
    some ({ asset_id := qi.asset.id
            step_id := qi.step_id
            approved := false
            selected_index := none
            regenerate := some regenerate
            modified_prompt :=
              if regenerate then
                (if st.modifiedPrompt.isEmpty then none else some st.modifiedPrompt)
              else none },
          { st with modifiedPrompt := "", selectedVariation := none })

end ApprovalQueue

/-- A pipeline step as edited by the wizard (types/index.ts,
`PipelineStep`), restricted to the fields the editors read and write.
`variations` is an `Int` because the JS number it models can be set to any
parsed integer. -/
structure PipelineStep where
  id : String
  type : String
  requires_approval : Bool
  variations : Int
  provider : Option String := none
  prompt_template : Option String := none
  deriving DecidableEq, Repr

/-- `x || d` on an optional JS number: `undefined` and `0` are falsy. -/
def jsOrInt (x : Option Int) (d : Int) : Int :=
  match x with
  | none => d
  | some n => if n = 0 then d else n

/-- JavaScript `parseInt` on the strings a number input produces: skip
leading spaces, read an optional sign and then leading digits; no digits
means `NaN`, modelled as `none`. -/
def jsParseInt (s : String) : Option Int :=
  let cs := s.data.dropWhile (fun c => c = ' ')
  match cs with
  | '-' :: rest =>
    let ds := rest.takeWhile Char.isDigit
    if ds.isEmpty then none
    else some (-(((ds.foldl (fun a c => a * 10 + (c.toNat - 48)) 0 : Nat) : Int)))
  | '+' :: rest =>
    let ds := rest.takeWhile Char.isDigit
    if ds.isEmpty then none
    else some ((ds.foldl (fun a c => a * 10 + (c.toNat - 48)) 0 : Nat) : Int)
  | _ =>
    let ds := cs.takeWhile Char.isDigit
    if ds.isEmpty then none
    else some ((ds.foldl (fun a c => a * 10 + (c.toNat - 48)) 0 : Nat) : Int)

/-- The value stored by the variations input's onChange in both editors
(FlowSetup.tsx:281, InteractiveQueue.tsx:993): `parseInt(e.target.value) || 1`. -/
def variationsEditValue (txt : String) : Int :=
  jsOrInt (jsParseInt txt) 1

namespace FlowSetup

/-- A step template's `defaultConfig` (FlowSetup.tsx, `StepTemplate`):
a `Partial<PipelineStep>`, so every field is optional. -/
structure StepTemplate where
  type : String
  requires_approval : Option Bool := none
  variations : Option Int := none
  provider : Option String := none
  prompt_template : Option String := none
  deriving DecidableEq, Repr

/-- `STEP_TEMPLATES` (FlowSetup.tsx:26-96). -/
def STEP_TEMPLATES : List StepTemplate :=
  [ { type := "research", requires_approval := some false, variations := some 1,
      provider := some "tavily" },
    { type := "generate_name", requires_approval := some true, variations := some 4,
      provider := some "gemini",
      prompt_template := some "Generate a creative name for: {description}" },
    { type := "generate_image", requires_approval := some true, variations := some 4,
      provider := some "gemini", prompt_template := some "{description}" },
    { type := "generate_sprite", requires_approval := some true, variations := some 4,
      provider := some "gemini",
      prompt_template := some "Pixel art sprite, 32-bit style. {description}. Front-facing, game asset, clean edges." },
    { type := "generate_text", requires_approval := some true, variations := some 2,
      provider := some "gemini",
      prompt_template := some "Write a detailed description for: {description}" },
    { type := "remove_background", requires_approval := some false, variations := some 1 } ]

/-- `addStep` (FlowSetup.tsx:135-146): builds a new step from a template,
with `variations: template.defaultConfig.variations || 1` and id
`type_Date.now()` (the timestamp is passed in explicitly). -/
def addStep (template : StepTemplate) (now : Nat) : PipelineStep :=
  { id := template.type ++ "_" ++ toString now
    type := template.type
    requires_approval := template.requires_approval.getD false
    variations := jsOrInt template.variations 1
    provider := template.provider
    prompt_template := template.prompt_template }

/-- `updateStep` (FlowSetup.tsx:154-158) applied to a variations edit
(FlowSetup.tsx:275-284): replaces the step at `index` with a copy whose
`variations` is the coerced parsed value. -/
def onVariationsEdit (pipeline : List PipelineStep) (index : Nat) (txt : String) :
    List PipelineStep :=
  pipeline.mapIdx (fun i s =>
    if i = index then { s with variations := variationsEditValue txt } else s)

end FlowSetup

namespace ArtDirection

/-- The approval-mode select's displayed value
(InteractiveQueue.tsx:1006): `step.variations > 1 ? "choose" : "accept"`. -/
def displayedApprovalMode (s : PipelineStep) : String :=
  if 1 < s.variations then "choose" else "accept"

/-- The approval-mode select's onChange (InteractiveQueue.tsx:1007-1016):
for the step whose id matches, set `variations` to `Math.max(2, current)`
when "Choose 1 of N" is picked and to `1` when "Accept/Reject" is picked;
map every other step to itself. -/
def toggleApprovalMode (pipeline : List PipelineStep) (stepId : String)
    (isChoose : Bool) : List PipelineStep :=
  pipeline.map (fun s =>
    if s.id = stepId then
      { s with variations := if isChoose then max 2 s.variations else 1 }
    else s)

end ArtDirection

namespace ApprovalLoop

/-- Modelled from the spec: the backend asset state machine (§4.2) is not
part of the sources; these are its states, including the terminal
`skipped` outcome of an exhausted accept/reject loop. -/
inductive MachineStatus where
  | pending
  | generating
  | awaiting_approval
  | rejected
  | approved
  | completed
  | failed
  | skipped
  deriving DecidableEq, Repr

/-- Modelled from the spec: the policy applied when an accept/reject loop
exhausts `max_attempts` — move the asset to `skipped`, or to `failed`
under a hard-fail policy (§4.2). -/
inductive ExhaustPolicy where
  | skipOnExhaust
  | hardFailOnExhaust
  deriving DecidableEq, Repr

/-- Terminal status an exhausted loop ends in under a policy. -/
def exhaustStatus : ExhaustPolicy → MachineStatus
  | ExhaustPolicy.skipOnExhaust => MachineStatus.skipped
  | ExhaustPolicy.hardFailOnExhaust => MachineStatus.failed

/-- The terminal states of the asset state machine (§4.2). -/
def terminalStatus (s : MachineStatus) : Prop :=
  s = MachineStatus.completed ∨ s = MachineStatus.failed ∨ s = MachineStatus.skipped

instance (s : MachineStatus) : Decidable (terminalStatus s) := by
  unfold terminalStatus
  infer_instance

/-- Modelled from the spec: the per-(asset, step) loop state of the
accept/reject state machine (§3 `StepResult`, §4.2) — current status, the
attempt counter (starting at 1), and the number of generation attempts
started so far. -/
structure LoopState where
  status : MachineStatus
  attempt : Nat
  genCount : Nat
  deriving DecidableEq, Repr

/-- Modelled from the spec: one step of the accept/reject loop in which
every approval is rejected (§4.2). `PENDING → GENERATING` starts the first
generation attempt; `GENERATING → AWAITING_APPROVAL` finishes it; a
rejection at `AWAITING_APPROVAL` moves to the policy's terminal state when
`attempt >= maxAttempts` and to `REJECTED` otherwise;
`REJECTED → GENERATING` starts a fresh attempt with `attempt + 1` (§3
`ApprovalItem` lifecycle). Terminal states are left unchanged. -/
def machineStep (maxAttempts : Nat) (policy : ExhaustPolicy) (st : LoopState) :
    LoopState :=
  match st.status with
  | MachineStatus.pending =>
    { st with status := MachineStatus.generating, genCount := st.genCount + 1 }
  | MachineStatus.rejected =>
    { st with status := MachineStatus.generating
              attempt := st.attempt + 1
              genCount := st.genCount + 1 }
  | MachineStatus.generating =>
    { st with status := MachineStatus.awaiting_approval }
  | MachineStatus.awaiting_approval =>
    if maxAttempts ≤ st.attempt then { st with status := exhaustStatus policy }
    else { st with status := MachineStatus.rejected }
  | _ => st

/-- Iterate the all-rejected loop `n` times. -/
def runMachine (maxAttempts : Nat) (policy : ExhaustPolicy) :
    Nat → LoopState → LoopState
  | 0, st => st
  | n + 1, st => runMachine maxAttempts policy n (machineStep maxAttempts policy st)

theorem machineStep_terminal (maxAttempts : Nat) (policy : ExhaustPolicy)
    (st : LoopState) (h : terminalStatus st.status) :
    machineStep maxAttempts policy st = st := by
  rcases h with h | h | h <;>
    · unfold machineStep
      rw [h]

theorem runMachine_add (maxAttempts : Nat) (policy : ExhaustPolicy)
    (a b : Nat) (st : LoopState) :
    runMachine maxAttempts policy (a + b) st =
      runMachine maxAttempts policy b (runMachine maxAttempts policy a st) := by
  induction a generalizing st with
  | zero => rw [Nat.zero_add]; rfl
  | succ a ih =>
    have : a + 1 + b = (a + b) + 1 := by omega
    rw [this]
    show runMachine maxAttempts policy (a + b) (machineStep maxAttempts policy st) = _
    rw [ih]
    rfl

theorem runMachine_terminal (maxAttempts : Nat) (policy : ExhaustPolicy)
    (n : Nat) (st : LoopState) (h : terminalStatus st.status) :
    runMachine maxAttempts policy n st = st := by
  induction n with
  | zero => rfl
  | succ n ih =>
    show runMachine maxAttempts policy n (machineStep maxAttempts policy st) = st
    rw [machineStep_terminal maxAttempts policy st h, ih]

/-- Modelled from the spec: the initial loop state — asset `PENDING`,
attempt counter 1 (§3 `StepResult`), no generation started yet. -/
def initialLoopState : LoopState :=
  { status := MachineStatus.pending, attempt := 1, genCount := 0 }

end ApprovalLoop


/-- A concrete generated option used by witness statements. -/
def sampleOpt (n : String) : GeneratedOption :=
  { id := n, type := "image" }

/-- A concrete choose-one approval item used by witness statements. -/
def sampleItem (opts : List GeneratedOption) : ApprovalItem :=
  { id := "item-1", asset_id := "asset-1", approval_type := ApprovalType.choose_one,
    options := opts, attempt := 1, max_attempts := 3 }

/-- A concrete accept/reject approval item used by witness statements. -/
def sampleAcceptItem : ApprovalItem :=
  { id := "item-2", asset_id := "asset-2", approval_type := ApprovalType.accept_reject,
    options := [sampleOpt "only"], attempt := 1, max_attempts := 3 }

/-- A concrete interactive-queue UI state used by witness statements. -/
def sampleState (opts : List GeneratedOption) (sel : Option String) :
    InteractiveQueue.UIState :=
  { status := none, currentItem := some (sampleItem opts), pendingItems := [],
    generatingItems := [], selectedOption := sel, loading := false }

/-- C1: for every asset with an accept_reject step bounded by max_attempts,
once the number of generation attempts reaches max_attempts and the last
attempt is rejected, the asset transitions to SKIPPED (or FAILED under a
hard-fail policy), no further generation attempt is ever started, and with
max_attempts = 3 and every approval rejected the asset ends SKIPPED after
exactly 3 generation attempts. -/
theorem rejected_attempts_reach_skipped_with_bound :
    (∀ (maxAttempts : Nat) (policy : ApprovalLoop.ExhaustPolicy)
        (st : ApprovalLoop.LoopState),
      st.status = ApprovalLoop.MachineStatus.awaiting_approval →
      maxAttempts ≤ st.attempt →
      (ApprovalLoop.machineStep maxAttempts policy st).status =
          ApprovalLoop.exhaustStatus policy ∧
        ApprovalLoop.terminalStatus
          (ApprovalLoop.machineStep maxAttempts policy st).status ∧
        (ApprovalLoop.machineStep maxAttempts policy st).genCount = st.genCount) ∧
    (∀ (maxAttempts : Nat) (policy : ApprovalLoop.ExhaustPolicy)
        (st : ApprovalLoop.LoopState),
      ApprovalLoop.terminalStatus st.status →
      ApprovalLoop.machineStep maxAttempts policy st = st) ∧
    (∀ n : Nat, 9 ≤ n →
      ApprovalLoop.runMachine 3 ApprovalLoop.ExhaustPolicy.skipOnExhaust n
          ApprovalLoop.initialLoopState =
        { status := ApprovalLoop.MachineStatus.skipped, attempt := 3, genCount := 3 }) := by
  refine ⟨?_, ?_, ?_⟩
  · intro maxAttempts policy st hstatus hmax
    have hstep : ApprovalLoop.machineStep maxAttempts policy st =
        { st with status := ApprovalLoop.exhaustStatus policy } := by
      unfold ApprovalLoop.machineStep
      rw [hstatus]
      simp [hmax]
    rw [hstep]
    refine ⟨rfl, ?_, rfl⟩
    cases policy <;> simp [ApprovalLoop.exhaustStatus, ApprovalLoop.terminalStatus]
  · intro maxAttempts policy st h
    exact ApprovalLoop.machineStep_terminal maxAttempts policy st h
  · intro n hn
    have hsplit : n = 9 + (n - 9) := by omega
    rw [hsplit, ApprovalLoop.runMachine_add]
    have h9 : ApprovalLoop.runMachine 3 ApprovalLoop.ExhaustPolicy.skipOnExhaust 9
        ApprovalLoop.initialLoopState =
        { status := ApprovalLoop.MachineStatus.skipped, attempt := 3, genCount := 3 } := by
      decide
    rw [h9]
    exact ApprovalLoop.runMachine_terminal _ _ _ _ (by simp [ApprovalLoop.terminalStatus])

/-- C1 witness: the machine with max_attempts = 3 and every approval
rejected ends SKIPPED with exactly 3 generation attempts after 12 ticks. -/
theorem rejected_attempts_reach_skipped_with_bound_witness :
    ApprovalLoop.runMachine 3 ApprovalLoop.ExhaustPolicy.skipOnExhaust 12
        ApprovalLoop.initialLoopState =
      { status := ApprovalLoop.MachineStatus.skipped, attempt := 3, genCount := 3 } :=
  rejected_attempts_reach_skipped_with_bound.2.2 12 (by decide)

/-- C4: the interactive queue's reject action submits, for exactly the
current item's id, a decision with approved = false and regenerate = true. -/
theorem interactive_reject_regenerates
    (st : InteractiveQueue.UIState) (item : ApprovalItem)
    (hcur : st.currentItem = some item) :
    InteractiveQueue.handleReject st =
      some { item_id := item.id, approved := false,
             selected_option_id := none, regenerate := some true } := by
  unfold InteractiveQueue.handleReject
  rw [hcur]

/-- C4 witness: rejecting the concrete sample item submits
`approved = false, regenerate = true` for its id. -/
theorem interactive_reject_regenerates_witness :
    InteractiveQueue.handleReject (sampleState [sampleOpt "o1"] none) =
      some { item_id := "item-1", approved := false,
             selected_option_id := none, regenerate := some true } :=
  interactive_reject_regenerates (sampleState [sampleOpt "o1"] none)
    (sampleItem [sampleOpt "o1"]) rfl

/-- C5: on every refresh, the displayed current item is the `getNext()`
result and the pending list is exactly the full approval list with its
first element removed; when `getNext()` returns the head of that list, the
current item consed onto the pending list is the full queue, with no
duplication and no omission. -/
theorem loadQueue_splits_full_queue
    (st : InteractiveQueue.UIState) (r : InteractiveQueue.QueueResponses) :
    (InteractiveQueue.loadQueue st r).currentItem = r.nextItem ∧
    (InteractiveQueue.loadQueue st r).pendingItems = r.allItems.drop 1 ∧
    (∀ a : ApprovalItem, r.nextItem = some a → r.allItems.head? = some a →
      (InteractiveQueue.loadQueue st r).currentItem = some a ∧
        a :: (InteractiveQueue.loadQueue st r).pendingItems = r.allItems) := by
  have hfields : (InteractiveQueue.loadQueue st r).currentItem = r.nextItem ∧
      (InteractiveQueue.loadQueue st r).pendingItems = r.allItems.drop 1 := by
    unfold InteractiveQueue.loadQueue
    cases r.nextItem with
    | none => exact ⟨rfl, rfl⟩
    | some item =>
      by_cases h : item.approval_type = ApprovalType.choose_one ∧ 0 < item.options.length
      · simp [h]
      · simp [h]
  refine ⟨hfields.1, hfields.2, ?_⟩
  intro a hnext hhead
  refine ⟨hfields.1.trans hnext, ?_⟩
  rw [hfields.2]
  cases hall : r.allItems with
  | nil => rw [hall] at hhead; exact absurd hhead (by simp)
  | cons b t =>
    rw [hall] at hhead
    simp only [List.head?_cons, Option.some.injEq] at hhead
    rw [hhead]
    rfl

/-- C5 witness: with a two-item queue whose head is also the `getNext()`
result, the current item plus pending list reassemble the full queue. -/
theorem loadQueue_splits_full_queue_witness :
    (InteractiveQueue.loadQueue (sampleState [] none)
        { statusRes := { total_assets := 2, completed_assets := 0, failed_assets := 0,
                         awaiting_approval := 2, currently_generating := 0, pending := 0,
                         is_running := true, is_paused := false },
          nextItem := some (sampleItem [sampleOpt "o1"]),
          allItems := [sampleItem [sampleOpt "o1"], sampleAcceptItem],
          genItems := [] }).currentItem = some (sampleItem [sampleOpt "o1"]) ∧
    sampleItem [sampleOpt "o1"] ::
        (InteractiveQueue.loadQueue (sampleState [] none)
          { statusRes := { total_assets := 2, completed_assets := 0, failed_assets := 0,
                           awaiting_approval := 2, currently_generating := 0, pending := 0,
                           is_running := true, is_paused := false },
            nextItem := some (sampleItem [sampleOpt "o1"]),
            allItems := [sampleItem [sampleOpt "o1"], sampleAcceptItem],
            genItems := [] }).pendingItems =
      [sampleItem [sampleOpt "o1"], sampleAcceptItem] :=
  (loadQueue_splits_full_queue _ _).2.2 (sampleItem [sampleOpt "o1"]) rfl rfl

/-- C9: after a refresh yielding a non-null current item, a choose-one item
with non-empty options gets its first option pre-selected, and any other
non-null item resets the selection to none. -/
theorem loadQueue_auto_selects_first_option
    (st : InteractiveQueue.UIState) (r : InteractiveQueue.QueueResponses)
    (item : ApprovalItem) (hnext : r.nextItem = some item) :
    (∀ (o : GeneratedOption) (rest : List GeneratedOption),
      item.approval_type = ApprovalType.choose_one → item.options = o :: rest →
      (InteractiveQueue.loadQueue st r).selectedOption = some o.id) ∧
    (¬ (item.approval_type = ApprovalType.choose_one ∧ 0 < item.options.length) →
      (InteractiveQueue.loadQueue st r).selectedOption = none) := by
  constructor
  · intro o rest hty hopts
    unfold InteractiveQueue.loadQueue
    rw [hnext]
    simp [hty, hopts]
  · intro h
    unfold InteractiveQueue.loadQueue
    rw [hnext]
    simp only [if_neg h]

/-- C9 witness: a refresh with a choose-one item pre-selects its first
option, and one with an accept/reject item clears the selection. -/
theorem loadQueue_auto_selects_first_option_witness :
    (InteractiveQueue.loadQueue (sampleState [] (some "stale"))
        { statusRes := { total_assets := 1, completed_assets := 0, failed_assets := 0,
                         awaiting_approval := 1, currently_generating := 0, pending := 0,
                         is_running := true, is_paused := false },
          nextItem := some (sampleItem [sampleOpt "o1", sampleOpt "o2"]),
          allItems := [sampleItem [sampleOpt "o1", sampleOpt "o2"]],
          genItems := [] }).selectedOption = some "o1" ∧
    (InteractiveQueue.loadQueue (sampleState [] (some "stale"))
        { statusRes := { total_assets := 1, completed_assets := 0, failed_assets := 0,
                         awaiting_approval := 1, currently_generating := 0, pending := 0,
                         is_running := true, is_paused := false },
          nextItem := some sampleAcceptItem,
          allItems := [sampleAcceptItem],
          genItems := [] }).selectedOption = none :=
  ⟨(loadQueue_auto_selects_first_option _ _ _ rfl).1 (sampleOpt "o1") [sampleOpt "o2"]
      rfl rfl,
    (loadQueue_auto_selects_first_option _ _ _ rfl).2 (by decide)⟩

/-- C8: with no current item, the "All done!" view is shown iff
total_assets > 0, completed + failed ≥ total, and there are no generating,
pending, or awaiting-approval items; whenever currently_generating > 0 the
generating view is shown instead. All counts are read from the latest
fetched status (`emptyStateView` is a function of the stored status only,
which `loadQueue` sets to the fetched one). -/
theorem empty_state_all_done_iff (status : Option QueueStatus) :
    (InteractiveQueue.emptyStateView status = EmptyView.allDoneView ↔
      0 < InteractiveQueue.statusTotal status ∧
      InteractiveQueue.statusTotal status ≤
        InteractiveQueue.statusCompleted status + InteractiveQueue.statusFailed status ∧
      InteractiveQueue.statusGenerating status = 0 ∧
      InteractiveQueue.statusPending status = 0 ∧
      InteractiveQueue.statusAwaiting status = 0) ∧
    (0 < InteractiveQueue.statusGenerating status →
      InteractiveQueue.emptyStateView status = EmptyView.generatingView) := by
  refine ⟨⟨fun h => ?_, fun h => ?_⟩, fun hg => ?_⟩
  · simp only [InteractiveQueue.emptyStateView] at h
    split_ifs at h <;> simp_all
  · obtain ⟨ht, hd, hg, hp, ha⟩ := h
    simp only [InteractiveQueue.emptyStateView]
    split_ifs <;> simp_all <;> omega
  · simp only [InteractiveQueue.emptyStateView]
    rw [if_pos hg]

/-- C8 witness: a status with everything complete shows "All done!", and a
status with one generation in flight shows the generating view. -/
theorem empty_state_all_done_iff_witness :
    InteractiveQueue.emptyStateView
        (some { total_assets := 3, completed_assets := 2, failed_assets := 1,
                awaiting_approval := 0, currently_generating := 0, pending := 0,
                is_running := false, is_paused := false }) = EmptyView.allDoneView ∧
    InteractiveQueue.emptyStateView
        (some { total_assets := 3, completed_assets := 1, failed_assets := 0,
                awaiting_approval := 0, currently_generating := 2, pending := 0,
                is_running := true, is_paused := false }) = EmptyView.generatingView :=
  ⟨(empty_state_all_done_iff _).1.2 (by decide),
    (empty_state_all_done_iff _).2 (by decide)⟩

/-- C2: for a choose_one current item, the Select button is disabled while
no option is selected, the Y/Enter shortcut only submits when an option is
selected, and every submitted approval carries a selected_option_id. -/
theorem choose_one_submits_only_with_selection
    (st : InteractiveQueue.UIState) (item : ApprovalItem)
    (hcur : st.currentItem = some item)
    (hty : item.approval_type = ApprovalType.choose_one) :
    (strTruthy st.selectedOption = false →
      InteractiveQueue.selectButtonEnabled st = false) ∧
    (∀ d : InteractiveApprovalRequest,
      InteractiveQueue.keyApprove st = some d → d.selected_option_id ≠ none) ∧
    (∀ d : InteractiveApprovalRequest,
      InteractiveQueue.clickSelectButton st = some d → d.selected_option_id ≠ none) := by
  have happrove : ∀ d : InteractiveApprovalRequest,
      strTruthy st.selectedOption = true →
      InteractiveQueue.handleApprove st = some d → d.selected_option_id ≠ none := by
    intro d htrue hd
    unfold InteractiveQueue.handleApprove at hd
    rw [hcur] at hd
    simp only [Option.some.injEq] at hd
    rw [← hd]
    simp only [if_pos htrue]
    cases hsel : st.selectedOption with
    | none => rw [hsel] at htrue; exact absurd htrue (by simp [strTruthy])
    | some s => simp
  refine ⟨?_, ?_, ?_⟩
  · intro hfalse
    unfold InteractiveQueue.selectButtonEnabled
    rw [hfalse]
    rfl
  · intro d hd
    simp only [InteractiveQueue.keyApprove, hcur] at hd
    by_cases hl : st.loading
    · rw [if_pos hl] at hd; exact absurd hd (by simp)
    · rw [if_neg hl] at hd
      by_cases hguard : strTruthy st.selectedOption = true ∨
          item.approval_type = ApprovalType.accept_reject
      · rw [if_pos (by simpa using hguard)] at hd
        have htrue : strTruthy st.selectedOption = true := by
          rcases hguard with h | h
          · exact h
          · rw [hty] at h; exact absurd h (by simp)
        exact happrove d htrue hd
      · rw [if_neg (by simpa using hguard)] at hd
        exact absurd hd (by simp)
  · intro d hd
    unfold InteractiveQueue.clickSelectButton at hd
    by_cases he : InteractiveQueue.selectButtonEnabled st = true
    · rw [if_pos he] at hd
      have htrue : strTruthy st.selectedOption = true := by
        unfold InteractiveQueue.selectButtonEnabled at he
        exact (Bool.and_eq_true _ _ |>.mp he).1
      exact happrove d htrue hd
    · rw [if_neg (by simpa using he)] at hd
      exact absurd hd (by simp)

/-- C2 witness: with no selection the Select button is disabled; with
option "o1" selected, the request the keyboard shortcut submits carries
selected_option_id "o1". -/
theorem choose_one_submits_only_with_selection_witness :
    InteractiveQueue.selectButtonEnabled (sampleState [sampleOpt "o1"] none) = false ∧
    ({ item_id := "item-1", approved := true, selected_option_id := some "o1",
       regenerate := none } : InteractiveApprovalRequest).selected_option_id ≠ none :=
  ⟨(choose_one_submits_only_with_selection (sampleState [sampleOpt "o1"] none)
      (sampleItem [sampleOpt "o1"]) rfl rfl).1 (by decide),
    (choose_one_submits_only_with_selection (sampleState [sampleOpt "o1"] (some "o1"))
      (sampleItem [sampleOpt "o1"]) rfl rfl).2.1
      { item_id := "item-1", approved := true, selected_option_id := some "o1",
        regenerate := none } (by decide)⟩

theorem wrapIndex_bounds (len n1 : Int) (h : 0 < len) :
    0 ≤ InteractiveQueue.wrapIndex len n1 ∧ InteractiveQueue.wrapIndex len n1 < len := by
  unfold InteractiveQueue.wrapIndex
  split_ifs <;> omega

theorem optionIdAt_wrap_mem (opts : List GeneratedOption) (hne : opts ≠ [])
    (n1 : Int) (fb : Option String) :
    ∃ o : GeneratedOption, o ∈ opts ∧
      InteractiveQueue.optionIdAt opts
        (InteractiveQueue.wrapIndex (opts.length : Int) n1).toNat fb = some o.id := by
  have hlen : 0 < opts.length := List.length_pos.mpr hne
  obtain ⟨h0, hlt⟩ :=
    wrapIndex_bounds (opts.length : Int) n1 (by exact_mod_cast hlen)
  have hnat : (InteractiveQueue.wrapIndex (opts.length : Int) n1).toNat < opts.length := by
    omega
  refine ⟨opts.get ⟨_, hnat⟩, List.get_mem _ _ _, ?_⟩
  unfold InteractiveQueue.optionIdAt
  rw [List.get?_eq_get hnat]

/-- C3: with a current item whose options list is non-empty, number key k
selects index k-1 only when k-1 < options.length, arrow navigation always
lands on an element of the options (wrapping at both ends), and the
resulting selected id always refers to one of the current item's options. -/
theorem selection_always_refers_to_an_option
    (st : InteractiveQueue.UIState) (item : ApprovalItem) (k : Nat)
    (hcur : st.currentItem = some item)
    (hne : item.options ≠ []) :
    (∀ direction : Int, ∃ o : GeneratedOption, o ∈ item.options ∧
      InteractiveQueue.navigateOption st direction = some o.id) ∧
    (st.loading = false → 1 ≤ k → k ≤ 9 →
      ∀ o : GeneratedOption, item.options.get? (k - 1) = some o →
        InteractiveQueue.pressNumberKey st k = some o.id) ∧
    (item.options.length ≤ k - 1 →
      InteractiveQueue.pressNumberKey st k = st.selectedOption) := by
  have hlen0 : ¬ item.options.length = 0 := by
    intro h
    exact hne (List.length_eq_zero.mp h)
  refine ⟨?_, ?_, ?_⟩
  · intro direction
    simp only [InteractiveQueue.navigateOption, hcur, if_neg hlen0]
    exact optionIdAt_wrap_mem item.options hne _ st.selectedOption
  · intro hload hk1 hk9 o ho
    simp only [InteractiveQueue.pressNumberKey, hcur, hload]
    rw [if_neg (by simp)]
    rw [if_pos ⟨hk1, hk9⟩, ho]
  · intro hle
    simp only [InteractiveQueue.pressNumberKey, hcur]
    by_cases hl : st.loading = true
    · rw [if_pos hl]
    · rw [if_neg hl]
      by_cases hk : 1 ≤ k ∧ k ≤ 9
      · rw [if_pos hk, List.get?_eq_none.mpr hle]
      · rw [if_neg hk]

/-- C3 witness: with options [o1, o2], left-arrow from o1 wraps to an
element of the options, key 2 selects o2, and key 5 leaves the selection
unchanged. -/
theorem selection_always_refers_to_an_option_witness :
    (∃ o : GeneratedOption, o ∈ [sampleOpt "o1", sampleOpt "o2"] ∧
      InteractiveQueue.navigateOption
        (sampleState [sampleOpt "o1", sampleOpt "o2"] (some "o1")) (-1) = some o.id) ∧
    InteractiveQueue.pressNumberKey
        (sampleState [sampleOpt "o1", sampleOpt "o2"] none) 2 = some "o2" ∧
    InteractiveQueue.pressNumberKey
        (sampleState [sampleOpt "o1", sampleOpt "o2"] none) 5 = none :=
  ⟨(selection_always_refers_to_an_option
      (sampleState [sampleOpt "o1", sampleOpt "o2"] (some "o1"))
      (sampleItem [sampleOpt "o1", sampleOpt "o2"]) 2 rfl (by decide)).1 (-1),
    (selection_always_refers_to_an_option
      (sampleState [sampleOpt "o1", sampleOpt "o2"] none)
      (sampleItem [sampleOpt "o1", sampleOpt "o2"]) 2 rfl (by decide)).2.1
      rfl (by decide) (by decide) (sampleOpt "o2") (by decide),
    (selection_always_refers_to_an_option
      (sampleState [sampleOpt "o1", sampleOpt "o2"] none)
      (sampleItem [sampleOpt "o1", sampleOpt "o2"]) 5 rfl (by decide)).2.2
      (by decide)⟩

/-- A concrete pipeline step used by counterexamples and witnesses. -/
def sampleStep : PipelineStep :=
  { id := "portrait", type := "generate_image", requires_approval := true,
    variations := 4, provider := some "gemini",
    prompt_template := some "{description}" }

/-- A second concrete pipeline step with a different id. -/
def sampleStep2 : PipelineStep :=
  { id := "flavor", type := "generate_text", requires_approval := true,
    variations := 2, provider := some "gemini",
    prompt_template := some "Write flavor text: {description}" }

/-- C6 counterexample: typing "-5" into the variations input stores -5 in
the step, so the edited step's variations is not an integer ≥ 1. -/
theorem variations_edit_not_always_ge_one :
    variationsEditValue "-5" = -5 ∧
    FlowSetup.onVariationsEdit [sampleStep] 0 "-5" =
      [{ sampleStep with variations := -5 }] ∧
    ¬ (1 ≤ variationsEditValue "-5") := by
  refine ⟨by decide, ?_, by decide⟩
  simp [FlowSetup.onVariationsEdit, List.mapIdx]
  decide

/-- C6 amended: a step added from a template gets its template default or 1
(all template defaults are ≥ 1), and an edit whose parsed value is NaN or 0
is coerced to 1, so an edited step's variations is ≥ 1 whenever the parsed
value is non-negative or unparsable; a parsed negative value, however, is
stored unchanged. -/
theorem variations_ge_one_for_nonnegative_edits :
    (∀ t : FlowSetup.StepTemplate, t ∈ FlowSetup.STEP_TEMPLATES →
      ∀ now : Nat, 1 ≤ (FlowSetup.addStep t now).variations) ∧
    (∀ s : String, jsParseInt s = none → variationsEditValue s = 1) ∧
    (∀ (s : String) (n : Int), jsParseInt s = some n → 0 ≤ n →
      1 ≤ variationsEditValue s) ∧
    (∀ (s : String) (n : Int), jsParseInt s = some n → n < 0 →
      variationsEditValue s = n) := by
  refine ⟨?_, ?_, ?_, ?_⟩
  · intro t ht now
    fin_cases ht <;> norm_num [FlowSetup.addStep, jsOrInt]
  · intro s h
    simp [variationsEditValue, jsOrInt, h]
  · intro s n h hn
    simp only [variationsEditValue, jsOrInt, h]
    by_cases h0 : n = 0
    · simp [h0]
    · rw [if_neg h0]
      omega
  · intro s n h hn
    simp only [variationsEditValue, jsOrInt, h]
    rw [if_neg (by omega)]

/-- C6 amended witness: the first template yields variations 1, an empty
edit is coerced to 1, "4" stays 4, and "-5" is stored as -5. -/
theorem variations_ge_one_for_nonnegative_edits_witness :
    1 ≤ (FlowSetup.addStep
      { type := "research", requires_approval := some false,
        variations := some 1, provider := some "tavily" } 1700000000000).variations ∧
    variationsEditValue "" = 1 ∧
    1 ≤ variationsEditValue "4" ∧
    variationsEditValue "-5" = -5 :=
  ⟨variations_ge_one_for_nonnegative_edits.1 _ (by decide) 1700000000000,
    variations_ge_one_for_nonnegative_edits.2.1 "" (by decide),
    variations_ge_one_for_nonnegative_edits.2.2.1 "4" 4 (by decide) (by decide),
    variations_ge_one_for_nonnegative_edits.2.2.2 "-5" (-5) (by decide) (by decide)⟩

/-- C7: a classic-queue rejection carries a modified_prompt only when
regeneration is requested and the reviewer entered a non-empty prompt; a
plain reject never carries one; and after the rejection is submitted the
prompt input and the variation selection are cleared. -/
theorem classic_reject_prompt_policy
    (st : ApprovalQueue.UIState) (regenerate : Bool)
    (req : ApprovalQueue.ApprovalRequest) (st2 : ApprovalQueue.UIState)
    (h : ApprovalQueue.handleReject st regenerate = some (req, st2)) :
    req.approved = false ∧
    (regenerate = false → req.modified_prompt = none) ∧
    (∀ p : String, req.modified_prompt = some p →
      regenerate = true ∧ p = st.modifiedPrompt ∧ p ≠ "") ∧
    (regenerate = true → st.modifiedPrompt ≠ "" →
      req.modified_prompt = some st.modifiedPrompt) ∧
    st2.modifiedPrompt = "" ∧ st2.selectedVariation = none := by
  unfold ApprovalQueue.handleReject at h
  cases hq : st.queue.get? st.currentIndex with
  | none => rw [hq] at h; exact absurd h (by simp)
  | some qi =>
    rw [hq] at h
    simp only [Option.some.injEq, Prod.mk.injEq] at h
    obtain ⟨hreq, hst2⟩ := h
    refine ⟨by rw [← hreq], ?_, ?_, ?_, by rw [← hst2], by rw [← hst2]⟩
    · intro hr
      rw [← hreq, hr]
      rfl
    · intro p hp
      rw [← hreq] at hp
      simp only at hp
      by_cases hr : regenerate = true
      · rw [if_pos hr] at hp
        by_cases hempty : st.modifiedPrompt.isEmpty = true
        · rw [if_pos hempty] at hp
          exact absurd hp (by simp)
        · rw [if_neg hempty] at hp
          simp only [Option.some.injEq] at hp
          subst hp
          refine ⟨hr, rfl, ?_⟩
          simpa [String.isEmpty_iff] using hempty
      · rw [if_neg hr] at hp
        exact absurd hp (by simp)
    · intro hr hne
      rw [← hreq]
      simp only [if_pos hr]
      rw [if_neg (by simpa [String.isEmpty_iff] using hne)]

/-- C7 witness: a regenerating rejection with prompt "more dragons" carries
it; submitting clears the prompt and the selection; a plain reject from the
same state carries none. -/
theorem classic_reject_prompt_policy_witness :
    (ApprovalQueue.handleReject
        { queue := [{ asset := { id := "asset-1" }, step_id := "portrait" }],
          currentIndex := 0, selectedVariation := some 1,
          modifiedPrompt := "more dragons" } true =
      some ({ asset_id := "asset-1", step_id := "portrait", approved := false,
              selected_index := none, regenerate := some true,
              modified_prompt := some "more dragons" },
            { queue := [{ asset := { id := "asset-1" }, step_id := "portrait" }],
              currentIndex := 0, selectedVariation := none,
              modifiedPrompt := "" })) ∧
    ({ asset_id := "asset-1", step_id := "portrait", approved := false,
       selected_index := none, regenerate := some true,
       modified_prompt := some "more dragons" } :
        ApprovalQueue.ApprovalRequest).modified_prompt = some "more dragons" ∧
    "more dragons" ≠ "" :=
  ⟨by decide,
    by
      have h := (classic_reject_prompt_policy
        { queue := [{ asset := { id := "asset-1" }, step_id := "portrait" }],
          currentIndex := 0, selectedVariation := some 1,
          modifiedPrompt := "more dragons" } true
        { asset_id := "asset-1", step_id := "portrait", approved := false,
          selected_index := none, regenerate := some true,
          modified_prompt := some "more dragons" }
        { queue := [{ asset := { id := "asset-1" }, step_id := "portrait" }],
          currentIndex := 0, selectedVariation := none,
          modifiedPrompt := "" } (by decide)).2.2.2.1 rfl (by decide)
      exact ⟨h, by decide⟩⟩

/-- C10: toggling a step's approval mode updates only that step's
variations — "Choose 1 of N" sets max(2, current), "Accept/Reject" sets 1 —
leaving every other field of that step and every step with a different id
unchanged; the displayed mode is "Choose 1 of N" exactly when variations
exceeds 1. -/
theorem toggle_approval_mode_frame
    (pipeline : List PipelineStep) (i : Nat) (s : PipelineStep) (isChoose : Bool)
    (hi : pipeline.get? i = some s)
    (huniq : ∀ (j : Nat) (t : PipelineStep), j ≠ i →
      pipeline.get? j = some t → t.id ≠ s.id) :
    (ArtDirection.toggleApprovalMode pipeline s.id isChoose).get? i =
      some { s with variations := if isChoose then max 2 s.variations else 1 } ∧
    (∀ (j : Nat) (t : PipelineStep), j ≠ i → pipeline.get? j = some t →
      (ArtDirection.toggleApprovalMode pipeline s.id isChoose).get? j = some t) ∧
    (ArtDirection.toggleApprovalMode pipeline s.id isChoose).length =
      pipeline.length ∧
    (ArtDirection.displayedApprovalMode s = "choose" ↔ 1 < s.variations) := by
  refine ⟨?_, ?_, ?_, ?_⟩
  · unfold ArtDirection.toggleApprovalMode
    rw [List.get?_map, hi]
    simp
  · intro j t hj ht
    unfold ArtDirection.toggleApprovalMode
    rw [List.get?_map, ht, Option.map_some']
    rw [if_neg (huniq j t hj ht)]
  · unfold ArtDirection.toggleApprovalMode
    exact List.length_map _ _
  · unfold ArtDirection.displayedApprovalMode
    by_cases h : 1 < s.variations
    · rw [if_pos h]
      simp [h]
    · rw [if_neg h]
      constructor
      · intro hc
        exact absurd hc (by decide)
      · intro hc
        exact absurd hc h

/-- C10 witness: in a two-step pipeline, choosing "Accept/Reject" for the
portrait step sets its variations to 1, leaves the flavor step unchanged,
and the portrait step displays "Choose 1 of N" before the toggle. -/
theorem toggle_approval_mode_frame_witness :
    (ArtDirection.toggleApprovalMode [sampleStep, sampleStep2]
        sampleStep.id false).get? 0 = some { sampleStep with variations := 1 } ∧
    (ArtDirection.toggleApprovalMode [sampleStep, sampleStep2]
        sampleStep.id false).get? 1 = some sampleStep2 ∧
    (ArtDirection.displayedApprovalMode sampleStep = "choose" ↔
      1 < sampleStep.variations) := by
  have huniq : ∀ (j : Nat) (t : PipelineStep), j ≠ 0 →
      ([sampleStep, sampleStep2] : List PipelineStep).get? j = some t →
      t.id ≠ sampleStep.id := by
    intro j t hj ht
    rcases j with _ | _ | j
    · exact absurd rfl hj
    · injection ht with h
      rw [← h]
      decide
    · have hnone : ([sampleStep, sampleStep2] : List PipelineStep).get? (j + 2) = none :=
        rfl
      rw [hnone] at ht
      exact absurd ht (by simp)
  have h := toggle_approval_mode_frame [sampleStep, sampleStep2] 0 sampleStep false
    rfl huniq
  exact ⟨h.1, h.2.1 1 sampleStep2 (by decide) rfl, h.2.2.2⟩
